import Mathlib

/-!
Verification of the CEMDownloader QGIS plugin, file `src/poligono_wcs.py`,
against its natural-language specification.

The Python module is shallowly embedded:
* numeric values (Python floats) are modelled as exact rationals (`ℚ`);
* Qt/QGIS effects (network replies, file writes, the processing framework,
  UI widgets) are modelled as explicit data: a `Reply` records the chunks a
  network reply delivers and its final error state, a `PolyEnv` records the
  outcome of every external call made on behalf of one polygon, and the
  orchestrator returns the log lines, I/O events and per-polygon outcomes it
  produced instead of performing them;
* Python `raise` / `try`-`except` becomes `Except String`;
* the fixed-point rendering of an f-string such as `f"%.8f" % x` is modelled
  by `formatFixed` (round to nearest at the requested number of decimals,
  ties away from the even-tie subtleties of binary doubles — no claim below
  depends on tie behaviour, only on the rendered shape and determinism).
-/

/-- Decimal digits of a natural number, least significant first, driven by a
structural fuel argument so that the kernel can evaluate it. -/
def digitsRevFuel : ℕ → ℕ → List ℕ
  | 0, _ => []
  | fuel + 1, n => if n = 0 then [] else n % 10 :: digitsRevFuel fuel (n / 10)

/-- Decimal digits of `n`, least significant first (`n` itself is enough fuel). -/
def digitsRev (n : ℕ) : List ℕ := digitsRevFuel n n

/-- Value of a least-significant-first decimal digit list. -/
def ofDigitsRev (l : List ℕ) : ℕ := l.foldr (fun d acc => d + 10 * acc) 0

/-- Most-significant-first digit characters of `n` (empty for `n = 0`). -/
def natDigitChars (n : ℕ) : List Char := (digitsRev n).reverse.map Nat.digitChar

/-- Decimal rendering of `n` zero-padded on the left to at least `d` characters,
modelling Python's `format(n, "0Nd")` padding. -/
def natPadded (n d : ℕ) : List Char :=
  List.replicate (d - (natDigitChars n).length) '0' ++ natDigitChars n

/-- Decimal rendering of a natural number, modelling Python's `str(n)`. -/
def natStr (n : ℕ) : String := if n = 0 then "0" else String.mk (natDigitChars n)

/-- Nearest integer to `x * p` for a rational `x` in lowest terms, computed
directly on the numerator and denominator:
`round (num * p / den) = fdiv (num * p * 2 + den) (den * 2)`. -/
def qroundScaled (x : ℚ) (p : ℕ) : ℤ :=
  Int.fdiv (x.num * (p : ℤ) * 2 + (x.den : ℤ)) ((x.den : ℤ) * 2)

/-- Fixed-point rendering of a rational with `d` digits after the decimal
point, modelling the f-string conversion `:.df` applied to a Python float:
round `x * 10^d` to the nearest integer and split it into an integer part and
a `d`-digit zero-padded fractional part.  (A negative value that rounds to
zero renders without the sign; no claim depends on that corner.) -/
def formatFixed (x : ℚ) (d : ℕ) : String :=
  let n : ℤ := qroundScaled x (10 ^ d)
  let a : ℕ := n.natAbs
  (if n < 0 then "-" else "") ++ natStr (a / 10 ^ d) ++ "." ++ String.mk (natPadded (a % 10 ^ d) d)

/-- Number of characters after the last `.` of a rendered string. -/
def decimalDigitCount (s : String) : ℕ :=
  (s.data.reverse.takeWhile (fun c => c ≠ '.')).length

/-- Numeric value of a decimal digit character. -/
def charVal (c : Char) : ℕ := c.toNat - 48

/-- Numeric value of a most-significant-first digit character list; inverse of
the zero-padded rendering (used to show the rendering is injective). -/
def unpadNat (l : List Char) : ℕ := ofDigitsRev (l.reverse.map charVal)

/-- The character `k` positions from the end of a string. -/
def nthFromEnd (s : String) (k : ℕ) : Option Char := s.data.reverse[k]?

-- ------------------ Configuration (poligono_wcs.py lines 25-28) ------------------

def WCS_BASE : String := "https://gaia.inegi.org.mx/geoserver/wcs"

def WCS_COVERAGE_ID : String := "cem30_workespace:cem3_r15"

def NODATA_VALUE : ℤ := -9999

def VALID_RES : List ℤ := [15, 30, 60, 90, 120]

/-- Lookup in the arcsecond table of `meters_to_deg_step`
(`{15: 0.5, 30: 1.0, 60: 2.0, 90: 3.0, 120: 4.0}`). -/
def res_step_table (res_m : ℤ) : Option ℚ :=
  if res_m = 15 then some (1 / 2)
  else if res_m = 30 then some 1
  else if res_m = 60 then some 2
  else if res_m = 90 then some 3
  else if res_m = 120 then some 4
  else none

/-- Embedding of `meters_to_deg_step` (lines 64-72): maps a meter resolution to
an angular pixel size in degrees; raises `ValueError` outside the table. -/
def meters_to_deg_step (res_m : ℤ) : Except String ℚ :=
  match res_step_table res_m with
  | none => .error "Resolución inválida (usa 15,30,60,90,120)."
  | some v => .ok (v / 3600)

/-- Embedding of a `QUrl` whose query has been set from a `QUrlQuery`:
the base URL plus an ordered list of `key=value` items. -/
structure WcsUrl where
  base : String
  query : List (String × String)
  deriving DecidableEq, Repr

def renderQuery (q : List (String × String)) : String :=
  String.intercalate "&" (q.map (fun p => p.1 ++ "=" ++ p.2))

def WcsUrl.render (u : WcsUrl) : String := u.base ++ "?" ++ renderQuery u.query

/-- Embedding of `build_wcs_getcoverage_url` (lines 75-95): builds the WCS
1.0.0 GetCoverage URL for a bbox (EPSG:4326) and resolution, propagating the
`ValueError` of `meters_to_deg_step` on an invalid resolution. -/
def build_wcs_getcoverage_url (bbox4326 : ℚ × ℚ × ℚ × ℚ) (res_m : ℤ) :
    Except String WcsUrl :=
  let (minx, miny, maxx, maxy) := bbox4326
  match meters_to_deg_step res_m with
  | .error e => .error e
  | .ok step =>
    .ok ⟨WCS_BASE,
      [("request", "GetCoverage"),
       ("service", "WCS"),
       ("version", "1.0.0"),
       ("coverage", WCS_COVERAGE_ID),
       ("crs", "EPSG:4326"),
       ("bbox", formatFixed minx 8 ++ "," ++ formatFixed miny 8 ++ "," ++
                formatFixed maxx 8 ++ "," ++ formatFixed maxy 8),
       ("resx", formatFixed step 7),
       ("resy", formatFixed step 7),
       ("format", "GeoTIFF")]⟩

/-- Abstract state of a completed `QNetworkReply`: the byte chunks the
`readyRead` signal delivered while the event loop ran, and the final
`reply.error()` state (`none` = `NoError`, `some s` = `errorString()`). -/
structure Reply where
  chunks : List (List ℕ)
  err : Option String
  deriving DecidableEq, Repr

/-- State of the destination file after `http_get_to_file_progress` returns
or raises: the bytes that were written, whether `f.close()` ran, and whether
anything deleted the file (the function never does). -/
structure FileState where
  written : List ℕ
  closed : Bool
  deleted : Bool
  deriving DecidableEq, Repr

/-- Embedding of `http_get_to_file_progress` (lines 98-133): every delivered
chunk is appended to the file; after the event loop finishes the file is
closed, and if `reply.error()` is set a `RuntimeError` with the message
`"Error de red: " ++ errorString` is raised.  The file is never deleted. -/
def http_get_to_file_progress (reply : Reply) : FileState × Except String Unit :=
  let fs : FileState := ⟨reply.chunks.flatten, true, false⟩
  match reply.err with
  | some e => (fs, .error ("Error de red: " ++ e))
  | none => (fs, .ok ())

-- ------------------ Scratch-workspace paths (lines 32-40, 255-272) ------------------

/-- Embedding of `plugin_temp_dir` (lines 32-40); the OS temp location that
`QStandardPaths` reports is taken as the parameter `tempBase`. -/
def plugin_temp_dir (tempBase : String) : String := tempBase ++ "/CEM_QGIS_Temp"

/-- Python's `format(i, "04d")`: decimal digits of `i`, left-padded with
zeros to at least four characters. -/
def pad4 (i : ℕ) : String := String.mk (natPadded i 4)

/-- The per-run scratch root (line 255). -/
def tmp_root_path (tempBase layerName : String) (res_m : ℤ) : String :=
  plugin_temp_dir tempBase ++ "/wcs_" ++ layerName ++ "_" ++ toString res_m ++ "m"

/-- The raw downloaded coverage for polygon `i` (line 270). -/
def tif_raw_path (tempBase layerName : String) (res_m : ℤ) (i : ℕ) : String :=
  tmp_root_path tempBase layerName res_m ++ "/wcs_raw_poly_" ++ pad4 i ++ ".tif"

/-- The GeoJSON mask for polygon `i` (line 271). -/
def mask_geojson_path (tempBase layerName : String) (res_m : ℤ) (i : ℕ) : String :=
  tmp_root_path tempBase layerName res_m ++ "/mask_poly_" ++ pad4 i ++ ".geojson"

/-- The final clipped product for polygon `i` (line 272). -/
def out_tif_path (tempBase layerName : String) (res_m : ℤ) (i : ℕ) : String :=
  tmp_root_path tempBase layerName res_m ++ "/" ++ layerName ++ "__poly" ++ pad4 i ++
    "__cem_" ++ toString res_m ++ "m_clip.tif"

-- ------------------ Per-polygon pipeline (lines 258-318) ------------------

/-- An I/O action performed on behalf of one polygon: writing its mask,
downloading its coverage, clipping it, loading the result. -/
inductive IOEvent where
  | maskWrite (path : String)
  | httpGet (url : String) (path : String)
  | clip (inputPath maskPath outputPath : String)
  | addRaster (path : String)
  deriving DecidableEq, Repr

/-- Behaviour of the external collaborators for one polygon: the outcome of
`_bbox_4326_from_geom` (reprojection), of `_write_single_polygon_geojson_4326`
(mask serialization), the network reply the download will observe, the outcome
of `gdal:cliprasterbymasklayer`, and whether `add_raster_gray_with_stats`
finds the produced file valid. -/
structure PolyEnv where
  bbox4326 : Except String (ℚ × ℚ × ℚ × ℚ)
  maskWrite : Except String Unit
  reply : Reply
  clip : Except String Unit
  loadOk : Bool

/-- Result of one iteration of the per-polygon loop. -/
inductive PolyOutcome where
  | loaded (outPath : String)
  | invalidFile (outPath : String)
  | failed (errorDetail : String)
  deriving DecidableEq, Repr

/-- Everything one loop iteration produced: its log lines, the I/O it
performed, its outcome, and (for audit) the bbox argument that was passed to
`build_wcs_getcoverage_url`, when the control flow reached that call. -/
structure PolyTrace where
  log : List String
  events : List IOEvent
  outcome : PolyOutcome
  queryBBox : Option (ℚ × ℚ × ℚ × ℚ)

def log_tag (i total : ℕ) : String := "[" ++ toString i ++ "/" ++ toString total ++ "] "

def err_line (i total : ℕ) (e : String) : String := log_tag i total ++ "ERROR: " ++ e

/-- Embedding of the body of the `for` loop of
`download_poligono_wcs_split_per_polygon` (lines 258-318): the `try` block
runs the pipeline bbox → step → URL → mask write → download → clip → load,
and the `except` clause turns any raised exception into a logged
`failed` outcome for this index. -/
def process_poly (tempBase layerName : String) (res_m : ℤ) (total i : ℕ)
    (env : PolyEnv) : PolyTrace :=
  match env.bbox4326 with
  | .error e => ⟨[err_line i total e], [], .failed e, none⟩
  | .ok (minx, miny, maxx, maxy) =>
    match meters_to_deg_step res_m with
    | .error e => ⟨[err_line i total e], [], .failed e, none⟩
    | .ok step_deg =>
      let pad := step_deg
      let bbox := (minx - pad, miny - pad, maxx + pad, maxy + pad)
      match build_wcs_getcoverage_url bbox res_m with
      | .error e => ⟨[err_line i total e], [], .failed e, some bbox⟩
      | .ok url =>
        let url_log := log_tag i total ++ "WCS GetCoverage: " ++ url.render
        let tif_raw := tif_raw_path tempBase layerName res_m i
        let mask_geojson := mask_geojson_path tempBase layerName res_m i
        let out_tif := out_tif_path tempBase layerName res_m i
        match env.maskWrite with
        | .error e =>
          ⟨[url_log, err_line i total e], [.maskWrite mask_geojson], .failed e, some bbox⟩
        | .ok _ =>
          match (http_get_to_file_progress env.reply).2 with
          | .error e =>
            ⟨[url_log, err_line i total e],
             [.maskWrite mask_geojson, .httpGet url.render tif_raw], .failed e, some bbox⟩
          | .ok _ =>
            match env.clip with
            | .error e =>
              ⟨[url_log, err_line i total e],
               [.maskWrite mask_geojson, .httpGet url.render tif_raw,
                .clip tif_raw mask_geojson out_tif], .failed e, some bbox⟩
            | .ok _ =>
              if env.loadOk then
                ⟨[url_log, log_tag i total ++ "OK → " ++ out_tif],
                 [.maskWrite mask_geojson, .httpGet url.render tif_raw,
                  .clip tif_raw mask_geojson out_tif, .addRaster out_tif],
                 .loaded out_tif, some bbox⟩
              else
                ⟨[url_log, log_tag i total ++ "Archivo inválido (no cargado): " ++ out_tif],
                 [.maskWrite mask_geojson, .httpGet url.render tif_raw,
                  .clip tif_raw mask_geojson out_tif, .addRaster out_tif],
                 .invalidFile out_tif, some bbox⟩

/-- Accumulated output of the loop over the (already exploded) feature list. -/
structure LoopOut where
  log : List String
  events : List IOEvent
  outcomes : List PolyOutcome
  progress : List ℕ

/-- The `for i, f in enumerate(feats, start=1)` loop: each iteration appends
its log lines and events, records its outcome, and (in the `finally` clause)
advances the progress bar to `i`. -/
def process_feats (tempBase layerName : String) (res_m : ℤ) (total : ℕ) :
    ℕ → List PolyEnv → LoopOut
  | _, [] => ⟨[], [], [], []⟩
  | i, env :: rest =>
    let t := process_poly tempBase layerName res_m total i env
    let r := process_feats tempBase layerName res_m total (i + 1) rest
    ⟨t.log ++ r.log, t.events ++ r.events, t.outcome :: r.outcomes, i :: r.progress⟩

/-- Observable result of a whole batch: the log widget contents, the
per-polygon outcomes, and the successive progress-bar values. -/
structure Batch where
  log : List String
  outcomes : List PolyOutcome
  progress : List ℕ
  deriving DecidableEq, Repr

/-- Embedding of `download_poligono_wcs_split_per_polygon` (lines 222-323).
Parameters: `tempBase` models the OS temp location, `layerName` the input
layer's name, and `feats` the single-part polygon environments obtained from
`_explode_to_singleparts` (the explode step itself is the external
`native:multiparttosingleparts` algorithm).  Returns the I/O events performed
together with either the batch result or the `ValueError` that an invalid
resolution raises before the loop (and before any I/O). -/
def download_poligono_wcs_split_per_polygon (tempBase layerName : String)
    (res_m : ℤ) (feats : List PolyEnv) : List IOEvent × Except String Batch :=
  if res_m ∉ VALID_RES then
    ([], .error "Resolución inválida. Usa 15,30,60,90 o 120 m.")
  else if feats.length = 0 then
    ([], .ok ⟨["La capa no contiene polígonos."], [], []⟩)
  else
    let r := process_feats tempBase layerName res_m feats.length 1 feats
    (r.events,
     .ok ⟨r.log ++ ["Listo. Resultado en TEMP (un TIFF por polígono)."],
          r.outcomes, r.progress⟩)

-- ------------------ Sample environments for concrete runs ------------------

/-- A polygon whose every external step succeeds. -/
def envOK : PolyEnv := ⟨.ok (0, 0, 1, 1), .ok (), ⟨[[1, 2]], none⟩, .ok (), true⟩

/-- A polygon whose network transfer fails. -/
def envNet : PolyEnv := ⟨.ok (0, 0, 1, 1), .ok (), ⟨[[1]], some "timeout"⟩, .ok (), true⟩

/-- A polygon whose reprojection fails. -/
def envProj : PolyEnv := ⟨.error "proj", .ok (), ⟨[[1]], none⟩, .ok (), true⟩

-- ====================== Theorems ======================

lemma valid_res_step (res_m : ℤ) (h : res_m ∈ VALID_RES) :
    ∃ q, meters_to_deg_step res_m = .ok q := by
  fin_cases h <;> exact ⟨_, rfl⟩

lemma build_ok_of_step_ok (bbox : ℚ × ℚ × ℚ × ℚ) (res_m : ℤ) (st : ℚ)
    (h : meters_to_deg_step res_m = .ok st) :
    build_wcs_getcoverage_url bbox res_m =
      .ok ⟨WCS_BASE,
        [("request", "GetCoverage"),
         ("service", "WCS"),
         ("version", "1.0.0"),
         ("coverage", WCS_COVERAGE_ID),
         ("crs", "EPSG:4326"),
         ("bbox", formatFixed bbox.1 8 ++ "," ++ formatFixed bbox.2.1 8 ++ "," ++
                  formatFixed bbox.2.2.1 8 ++ "," ++ formatFixed bbox.2.2.2 8),
         ("resx", formatFixed st 7),
         ("resy", formatFixed st 7),
         ("format", "GeoTIFF")]⟩ := by
  obtain ⟨a, b, c, d⟩ := bbox
  simp [build_wcs_getcoverage_url, h]

/-- C3: `meters_to_deg_step` returns exactly 0.5/3600 degrees for input 15,
1.0/3600 for 30, 2.0/3600 for 60, 3.0/3600 for 90, 4.0/3600 for 120, and
fails with the invalid-resolution `ValueError` for every other input. -/
theorem meters_to_deg_step_table_exact :
    meters_to_deg_step 15 = .ok ((0.5 : ℚ) / 3600) ∧
    meters_to_deg_step 30 = .ok ((1.0 : ℚ) / 3600) ∧
    meters_to_deg_step 60 = .ok ((2.0 : ℚ) / 3600) ∧
    meters_to_deg_step 90 = .ok ((3.0 : ℚ) / 3600) ∧
    meters_to_deg_step 120 = .ok ((4.0 : ℚ) / 3600) ∧
    ∀ res_m : ℤ, res_m ∉ VALID_RES →
      meters_to_deg_step res_m = .error "Resolución inválida (usa 15,30,60,90,120)." := by
  refine ⟨?_, ?_, ?_, ?_, ?_, ?_⟩
  · show Except.ok ((1 / 2 : ℚ) / 3600) = _
    norm_num
  · show Except.ok ((1 : ℚ) / 3600) = _
    norm_num
  · show Except.ok ((2 : ℚ) / 3600) = _
    norm_num
  · show Except.ok ((3 : ℚ) / 3600) = _
    norm_num
  · show Except.ok ((4 : ℚ) / 3600) = _
    norm_num
  · intro r hr
    simp only [VALID_RES, List.mem_cons, List.not_mem_nil, or_false, not_or] at hr
    obtain ⟨h1, h2, h3, h4, h5⟩ := hr
    simp [meters_to_deg_step, res_step_table, h1, h2, h3, h4, h5]

/-- C3 witness: the invalid branch fires at the concrete input 45. -/
theorem meters_to_deg_step_table_exact_witness :
    (45 : ℤ) ∉ VALID_RES ∧
      meters_to_deg_step 45 = .error "Resolución inválida (usa 15,30,60,90,120)." :=
  ⟨by decide, meters_to_deg_step_table_exact.2.2.2.2.2 45 (by decide)⟩

/-- C9: under the entry precondition `res_m ∈ VALID_RES` the invalid-resolution
branch of `meters_to_deg_step` is unreachable inside the loop: both the direct
call and the one inside `build_wcs_getcoverage_url` return a value and never
produce the error. -/
theorem step_error_unreachable_in_loop (res_m : ℤ) (h : res_m ∈ VALID_RES) :
    (∃ q, meters_to_deg_step res_m = .ok q) ∧
    (∀ e, meters_to_deg_step res_m ≠ .error e) ∧
    (∀ bbox : ℚ × ℚ × ℚ × ℚ, ∃ u, build_wcs_getcoverage_url bbox res_m = .ok u) ∧
    (∀ (bbox : ℚ × ℚ × ℚ × ℚ) (e : String), build_wcs_getcoverage_url bbox res_m ≠ .error e) := by
  obtain ⟨q, hq⟩ := valid_res_step res_m h
  refine ⟨⟨q, hq⟩, ?_, ?_, ?_⟩
  · intro e he
    rw [hq] at he
    exact Except.noConfusion he
  · intro bbox
    exact ⟨_, build_ok_of_step_ok bbox res_m q hq⟩
  · intro bbox e he
    rw [build_ok_of_step_ok bbox res_m q hq] at he
    exact Except.noConfusion he

/-- C9 witness: at resolution 15 and a concrete bbox both calls succeed. -/
theorem step_error_unreachable_in_loop_witness :
    (15 : ℤ) ∈ VALID_RES ∧
      ((∃ q, meters_to_deg_step 15 = .ok q) ∧
       (∀ e, meters_to_deg_step 15 ≠ .error e) ∧
       (∀ bbox : ℚ × ℚ × ℚ × ℚ, ∃ u, build_wcs_getcoverage_url bbox 15 = .ok u) ∧
       (∀ (bbox : ℚ × ℚ × ℚ × ℚ) (e : String), build_wcs_getcoverage_url bbox 15 ≠ .error e)) :=
  ⟨by decide, step_error_unreachable_in_loop 15 (by decide)⟩

/-- C8: `http_get_to_file_progress` raises the network `RuntimeError` exactly
when the completed reply reports a failure; in every case the destination file
is closed and never deleted, and a failed transfer is never reported as a
successful one. -/
theorem http_fetch_failure_semantics (reply : Reply) :
    (http_get_to_file_progress reply).1.closed = true ∧
    (http_get_to_file_progress reply).1.deleted = false ∧
    ((∃ e, (http_get_to_file_progress reply).2 = .error e) ↔ reply.err.isSome) ∧
    ((http_get_to_file_progress reply).2 = .ok () → reply.err = none) ∧
    (∀ e, reply.err = some e →
      (http_get_to_file_progress reply).2 = .error ("Error de red: " ++ e)) := by
  obtain ⟨chunks, err⟩ := reply
  cases err <;> simp [http_get_to_file_progress]

/-- C8 witness: a reply that fails after one delivered chunk. -/
theorem http_fetch_failure_semantics_witness :
    (http_get_to_file_progress ⟨[[7]], some "connection reset"⟩).1.closed = true ∧
    (http_get_to_file_progress ⟨[[7]], some "connection reset"⟩).1.deleted = false ∧
    ((∃ e, (http_get_to_file_progress ⟨[[7]], some "connection reset"⟩).2 = .error e) ↔
      (Option.some "connection reset").isSome) ∧
    ((http_get_to_file_progress ⟨[[7]], some "connection reset"⟩).2 = .ok () →
      (Option.some "connection reset") = none) ∧
    (∀ e, (Option.some "connection reset") = some e →
      (http_get_to_file_progress ⟨[[7]], some "connection reset"⟩).2 =
        .error ("Error de red: " ++ e)) :=
  http_fetch_failure_semantics ⟨[[7]], some "connection reset"⟩

lemma digitsRevFuel_lt10 : ∀ fuel n x, x ∈ digitsRevFuel fuel n → x < 10 := by
  intro fuel
  induction fuel with
  | zero => intro n x hx; simp [digitsRevFuel] at hx
  | succ f ih =>
    intro n x hx
    by_cases hn : n = 0
    · simp [digitsRevFuel, hn] at hx
    · simp only [digitsRevFuel, if_neg hn, List.mem_cons] at hx
      rcases hx with hx | hx
      · simpa [hx] using Nat.mod_lt n (by norm_num)
      · exact ih _ _ hx

lemma digitsRevFuel_length_le : ∀ fuel n d, n ≤ fuel → n < 10 ^ d →
    (digitsRevFuel fuel n).length ≤ d := by
  intro fuel
  induction fuel with
  | zero => intro n d _ _; simp [digitsRevFuel]
  | succ f ih =>
    intro n d hn hd
    by_cases h0 : n = 0
    · simp [digitsRevFuel, h0]
    · cases d with
      | zero =>
        simp only [pow_zero, Nat.lt_one_iff] at hd
        exact absurd hd h0
      | succ d' =>
        simp only [digitsRevFuel, if_neg h0, List.length_cons, Nat.succ_le_succ_iff]
        refine ih (n / 10) d' ?_ ?_
        · exact Nat.le_of_lt_succ (Nat.lt_of_lt_of_le (Nat.div_lt_self (Nat.pos_of_ne_zero h0) (by norm_num)) hn)
        · rw [Nat.div_lt_iff_lt_mul (by norm_num)]
          calc n < 10 ^ (d' + 1) := hd
            _ = 10 ^ d' * 10 := by ring

lemma natDigitChars_length_le (m d : ℕ) (h : m < 10 ^ d) :
    (natDigitChars m).length ≤ d := by
  simpa [natDigitChars, digitsRev] using digitsRevFuel_length_le m m d le_rfl h

lemma natPadded_length (m d : ℕ) (h : m < 10 ^ d) : (natPadded m d).length = d := by
  have hle := natDigitChars_length_le m d h
  simp [natPadded]
  omega

lemma digitChar_ne_dot (n : ℕ) (h : n < 10) : Nat.digitChar n ≠ '.' := by
  interval_cases n <;> decide

lemma natPadded_mem_ne_dot (m d : ℕ) (c : Char) (hc : c ∈ natPadded m d) : c ≠ '.' := by
  simp only [natPadded, natDigitChars, digitsRev, List.mem_append, List.mem_replicate,
    List.mem_map, List.mem_reverse] at hc
  rcases hc with ⟨_, rfl⟩ | ⟨x, hx, rfl⟩
  · decide
  · exact digitChar_ne_dot x (digitsRevFuel_lt10 m m x hx)

lemma takeWhile_append_stop (p : Char → Bool) (l1 : List Char) (c : Char)
    (l2 : List Char) (h : ∀ x ∈ l1, p x = true) (hc : p c = false) :
    (l1 ++ c :: l2).takeWhile p = l1 := by
  induction l1 with
  | nil => simp [List.takeWhile_cons, hc]
  | cons a l ih =>
    have ha : p a = true := h a (List.mem_cons_self a l)
    simp only [List.cons_append, List.takeWhile_cons, ha, if_true]
    rw [ih (fun x hx => h x (List.mem_cons_of_mem a hx))]

lemma decimalDigitCount_formatFixed (x : ℚ) (d : ℕ) :
    decimalDigitCount (formatFixed x d) = d := by
  have hmod : (qroundScaled x (10 ^ d)).natAbs % 10 ^ d < 10 ^ d :=
    Nat.mod_lt _ (Nat.pos_pow_of_pos d (by norm_num))
  set a := (qroundScaled x (10 ^ d)).natAbs with ha
  have hdata : (formatFixed x d).data =
      ((if qroundScaled x (10 ^ d) < 0 then "-" else "").data ++
        (natStr (a / 10 ^ d)).data ++ ['.']) ++ natPadded (a % 10 ^ d) d := by
    simp [formatFixed, String.data_append, ha, List.append_assoc]
  have hrev : (formatFixed x d).data.reverse =
      (natPadded (a % 10 ^ d) d).reverse ++ '.' ::
        ((natStr (a / 10 ^ d)).data.reverse ++
          (if qroundScaled x (10 ^ d) < 0 then "-" else "").data.reverse) := by
    rw [hdata]
    simp [List.reverse_append]
  simp only [decimalDigitCount, hrev]
  rw [takeWhile_append_stop _ _ _ _
    (fun c hc => by
      simp only [List.mem_reverse] at hc
      simpa using natPadded_mem_ne_dot _ _ c hc)
    (by decide)]
  rw [List.length_reverse]
  exact natPadded_length _ _ hmod

/-- C4: `build_wcs_getcoverage_url` is pure and deterministic — identical
inputs give the identical URL — and for every valid resolution it succeeds
with the fixed protocol parameters, the four bbox fields rendered with
exactly 8 decimal digits, and `resx`/`resy` both equal to the angular step
rendered with exactly 7 decimal digits. -/
theorem build_url_pure_and_shape (minx miny maxx maxy : ℚ) (res_m : ℤ)
    (hres : res_m ∈ VALID_RES) :
    ∃ step, meters_to_deg_step res_m = .ok step ∧
      build_wcs_getcoverage_url (minx, miny, maxx, maxy) res_m =
        .ok ⟨WCS_BASE,
          [("request", "GetCoverage"),
           ("service", "WCS"),
           ("version", "1.0.0"),
           ("coverage", WCS_COVERAGE_ID),
           ("crs", "EPSG:4326"),
           ("bbox", formatFixed minx 8 ++ "," ++ formatFixed miny 8 ++ "," ++
                    formatFixed maxx 8 ++ "," ++ formatFixed maxy 8),
           ("resx", formatFixed step 7),
           ("resy", formatFixed step 7),
           ("format", "GeoTIFF")]⟩ ∧
      (∀ (b2 : ℚ × ℚ × ℚ × ℚ) (r2 : ℤ), b2 = (minx, miny, maxx, maxy) → r2 = res_m →
        build_wcs_getcoverage_url b2 r2 =
          build_wcs_getcoverage_url (minx, miny, maxx, maxy) res_m) ∧
      decimalDigitCount (formatFixed minx 8) = 8 ∧
      decimalDigitCount (formatFixed miny 8) = 8 ∧
      decimalDigitCount (formatFixed maxx 8) = 8 ∧
      decimalDigitCount (formatFixed maxy 8) = 8 ∧
      decimalDigitCount (formatFixed step 7) = 7 := by
  obtain ⟨st, hst⟩ := valid_res_step res_m hres
  refine ⟨st, hst, ?_, ?_, ?_, ?_, ?_, ?_, ?_⟩
  · exact build_ok_of_step_ok (minx, miny, maxx, maxy) res_m st hst
  · intro b2 r2 hb hr
    rw [hb, hr]
  · exact decimalDigitCount_formatFixed minx 8
  · exact decimalDigitCount_formatFixed miny 8
  · exact decimalDigitCount_formatFixed maxx 8
  · exact decimalDigitCount_formatFixed maxy 8
  · exact decimalDigitCount_formatFixed st 7

/-- C4 witness: the concrete bbox of the spec's end-to-end example at
resolution 30. -/
theorem build_url_pure_and_shape_witness :
    (30 : ℤ) ∈ VALID_RES ∧
      ∃ step, meters_to_deg_step 30 = .ok step ∧
        build_wcs_getcoverage_url (-99.2, 19.3, -99.1, 19.4) 30 =
          .ok ⟨WCS_BASE,
            [("request", "GetCoverage"),
             ("service", "WCS"),
             ("version", "1.0.0"),
             ("coverage", WCS_COVERAGE_ID),
             ("crs", "EPSG:4326"),
             ("bbox", formatFixed (-99.2) 8 ++ "," ++ formatFixed 19.3 8 ++ "," ++
                      formatFixed (-99.1) 8 ++ "," ++ formatFixed 19.4 8),
             ("resx", formatFixed step 7),
             ("resy", formatFixed step 7),
             ("format", "GeoTIFF")]⟩ ∧
        (∀ (b2 : ℚ × ℚ × ℚ × ℚ) (r2 : ℤ), b2 = (-99.2, 19.3, -99.1, 19.4) → r2 = 30 →
          build_wcs_getcoverage_url b2 r2 =
            build_wcs_getcoverage_url (-99.2, 19.3, -99.1, 19.4) 30) ∧
        decimalDigitCount (formatFixed (-99.2) 8) = 8 ∧
        decimalDigitCount (formatFixed 19.3 8) = 8 ∧
        decimalDigitCount (formatFixed (-99.1) 8) = 8 ∧
        decimalDigitCount (formatFixed 19.4 8) = 8 ∧
        decimalDigitCount (formatFixed step 7) = 7 :=
  ⟨by decide, build_url_pure_and_shape (-99.2) 19.3 (-99.1) 19.4 30 (by decide)⟩

lemma process_poly_failed_log (tempBase layerName : String) (res_m : ℤ)
    (total i : ℕ) (env : PolyEnv) (e : String)
    (h : (process_poly tempBase layerName res_m total i env).outcome = .failed e) :
    err_line i total e ∈ (process_poly tempBase layerName res_m total i env).log := by
  rcases env with ⟨bb, mw, rep, cl, lo⟩
  rcases bb with e1 | v
  · simp only [process_poly] at h ⊢
    simp_all
  · obtain ⟨a, b, c, d⟩ := v
    rcases hm : meters_to_deg_step res_m with e2 | st
    · simp only [process_poly, hm] at h ⊢
      simp_all
    · have hb := build_ok_of_step_ok (a - st, b - st, c + st, d + st) res_m st hm
      simp only [process_poly, hm, hb] at h ⊢
      rcases mw with e3 | u3
      · simp_all
      · rcases rep with ⟨ch, er⟩
        rcases er with _ | e4
        · simp only [http_get_to_file_progress] at h ⊢
          rcases cl with e5 | u5
          · simp_all
          · rcases lo with _ | _ <;> simp_all
        · simp only [http_get_to_file_progress] at h ⊢
          simp_all

lemma process_poly_queryBBox (tempBase layerName : String) (res_m : ℤ)
    (total i : ℕ) (env : PolyEnv) (a b c d st : ℚ)
    (hbb : env.bbox4326 = .ok (a, b, c, d))
    (hm : meters_to_deg_step res_m = .ok st) :
    (process_poly tempBase layerName res_m total i env).queryBBox =
      some (a - st, b - st, c + st, d + st) := by
  rcases env with ⟨bb, mw, rep, cl, lo⟩
  simp only at hbb
  subst hbb
  have hb := build_ok_of_step_ok (a - st, b - st, c + st, d + st) res_m st hm
  simp only [process_poly, hm, hb]
  rcases mw with e3 | u3 <;> rcases rep with ⟨ch, er⟩ <;> rcases er with _ | e4 <;>
    rcases cl with e5 | u5 <;> rcases lo with _ | _ <;>
    simp [http_get_to_file_progress]

lemma process_feats_outcomes_length (tempBase layerName : String) (res_m : ℤ)
    (total : ℕ) : ∀ (feats : List PolyEnv) (i : ℕ),
    (process_feats tempBase layerName res_m total i feats).outcomes.length = feats.length := by
  intro feats
  induction feats with
  | nil => intro i; simp [process_feats]
  | cons env rest ih => intro i; simp [process_feats, ih]

lemma process_feats_progress (tempBase layerName : String) (res_m : ℤ)
    (total : ℕ) : ∀ (feats : List PolyEnv) (i : ℕ),
    (process_feats tempBase layerName res_m total i feats).progress =
      List.range' i feats.length := by
  intro feats
  induction feats with
  | nil => intro i; simp [process_feats]
  | cons env rest ih => intro i; simp [process_feats, ih, List.range'_succ]

lemma process_feats_outcomes_get (tempBase layerName : String) (res_m : ℤ)
    (total : ℕ) : ∀ (feats : List PolyEnv) (i k : ℕ),
    (process_feats tempBase layerName res_m total i feats).outcomes[k]? =
      (feats[k]?).map
        (fun env => (process_poly tempBase layerName res_m total (i + k) env).outcome) := by
  intro feats
  induction feats with
  | nil => intro i k; simp [process_feats]
  | cons env rest ih =>
    intro i k
    cases k with
    | zero => simp [process_feats]
    | succ k' =>
      simp only [process_feats, List.getElem?_cons_succ]
      rw [ih (i + 1) k', show i + 1 + k' = i + (k' + 1) from by omega]

lemma process_feats_log_mem (tempBase layerName : String) (res_m : ℤ)
    (total : ℕ) : ∀ (feats : List PolyEnv) (i k : ℕ) (env : PolyEnv),
    feats[k]? = some env →
    ∀ x ∈ (process_poly tempBase layerName res_m total (i + k) env).log,
      x ∈ (process_feats tempBase layerName res_m total i feats).log := by
  intro feats
  induction feats with
  | nil => intro i k env h; simp at h
  | cons e0 rest ih =>
    intro i k env h x hx
    cases k with
    | zero =>
      simp only [List.getElem?_cons_zero, Option.some_inj] at h
      subst h
      simp only [process_feats, List.mem_append]
      left
      simpa using hx
    | succ k' =>
      simp only [List.getElem?_cons_succ] at h
      simp only [process_feats, List.mem_append]
      right
      refine ih (i + 1) k' env h x ?_
      have : i + 1 + k' = i + (k' + 1) := by omega
      rw [this]
      exact hx

/-- C1: no single polygon's failure aborts the batch — for every batch, every
polygon is processed (one outcome and one progress tick per polygon, each
outcome a function of that polygon's own environment), and each failed
polygon's exception detail is logged for its index. -/
theorem batch_failure_isolation (tempBase layerName : String) (res_m : ℤ)
    (feats : List PolyEnv) (hres : res_m ∈ VALID_RES) (hne : feats.length ≠ 0) :
    ∃ ev b,
      download_poligono_wcs_split_per_polygon tempBase layerName res_m feats = (ev, .ok b) ∧
      b.outcomes.length = feats.length ∧
      b.progress = List.range' 1 feats.length ∧
      (∀ k : ℕ, b.outcomes[k]? =
        (feats[k]?).map
          (fun env =>
            (process_poly tempBase layerName res_m feats.length (1 + k) env).outcome)) ∧
      (∀ (k : ℕ) (env : PolyEnv) (e : String), feats[k]? = some env →
        (process_poly tempBase layerName res_m feats.length (1 + k) env).outcome = .failed e →
        err_line (1 + k) feats.length e ∈ b.log) := by
  refine ⟨(process_feats tempBase layerName res_m feats.length 1 feats).events,
    ⟨(process_feats tempBase layerName res_m feats.length 1 feats).log ++
      ["Listo. Resultado en TEMP (un TIFF por polígono)."],
     (process_feats tempBase layerName res_m feats.length 1 feats).outcomes,
     (process_feats tempBase layerName res_m feats.length 1 feats).progress⟩, ?_, ?_, ?_, ?_, ?_⟩
  · simp [download_poligono_wcs_split_per_polygon, hres, hne]
  · simp [process_feats_outcomes_length]
  · simp [process_feats_progress]
  · intro k
    simpa using process_feats_outcomes_get tempBase layerName res_m feats.length feats 1 k
  · intro k env e hk hfail
    have hmem := process_feats_log_mem tempBase layerName res_m feats.length feats 1 k env hk
      (err_line (1 + k) feats.length e)
      (process_poly_failed_log tempBase layerName res_m feats.length (1 + k) env e hfail)
    simp only [List.mem_append]
    left
    exact hmem

/-- C1 witness: a three-polygon batch whose middle polygon fails with a
network error; all three are processed and the failure is logged at index 2. -/
theorem batch_failure_isolation_witness :
    (30 : ℤ) ∈ VALID_RES ∧ ([envOK, envNet, envOK] : List PolyEnv).length ≠ 0 ∧
      ∃ ev b,
        download_poligono_wcs_split_per_polygon "T" "capa" 30 [envOK, envNet, envOK] =
          (ev, .ok b) ∧
        b.outcomes.length = ([envOK, envNet, envOK] : List PolyEnv).length ∧
        b.progress = List.range' 1 ([envOK, envNet, envOK] : List PolyEnv).length ∧
        (∀ k : ℕ, b.outcomes[k]? =
          (([envOK, envNet, envOK] : List PolyEnv)[k]?).map
            (fun env =>
              (process_poly "T" "capa" 30 ([envOK, envNet, envOK] : List PolyEnv).length
                (1 + k) env).outcome)) ∧
        (∀ (k : ℕ) (env : PolyEnv) (e : String),
          ([envOK, envNet, envOK] : List PolyEnv)[k]? = some env →
          (process_poly "T" "capa" 30 ([envOK, envNet, envOK] : List PolyEnv).length
            (1 + k) env).outcome = .failed e →
          err_line (1 + k) ([envOK, envNet, envOK] : List PolyEnv).length e ∈ b.log) :=
  ⟨by decide, by simp,
    batch_failure_isolation "T" "capa" 30 [envOK, envNet, envOK] (by decide) (by simp)⟩

/-- C2: an invalid resolution makes the batch entry point fail immediately
with the invalid-resolution error and perform zero I/O (no events at all),
while a valid resolution passes the pre-flight check. -/
theorem preflight_resolution_check (tempBase layerName : String) (res_m : ℤ)
    (feats : List PolyEnv) :
    (res_m ∉ VALID_RES →
      download_poligono_wcs_split_per_polygon tempBase layerName res_m feats =
        ([], .error "Resolución inválida. Usa 15,30,60,90 o 120 m.")) ∧
    (res_m ∈ VALID_RES →
      ∃ ev b,
        download_poligono_wcs_split_per_polygon tempBase layerName res_m feats =
          (ev, .ok b)) := by
  constructor
  · intro h
    simp [download_poligono_wcs_split_per_polygon, h]
  · intro h
    by_cases hf : feats.length = 0
    · refine ⟨[], ⟨["La capa no contiene polígonos."], [], []⟩, ?_⟩
      simp [download_poligono_wcs_split_per_polygon, h, hf]
    · refine ⟨(process_feats tempBase layerName res_m feats.length 1 feats).events,
        ⟨(process_feats tempBase layerName res_m feats.length 1 feats).log ++
          ["Listo. Resultado en TEMP (un TIFF por polígono)."],
         (process_feats tempBase layerName res_m feats.length 1 feats).outcomes,
         (process_feats tempBase layerName res_m feats.length 1 feats).progress⟩, ?_⟩
      simp [download_poligono_wcs_split_per_polygon, h, hf]

/-- C2 witness: resolution 45 fails with zero events; resolution 30 passes. -/
theorem preflight_resolution_check_witness :
    ((45 : ℤ) ∉ VALID_RES ∧
      download_poligono_wcs_split_per_polygon "T" "capa" 45 [envOK] =
        ([], .error "Resolución inválida. Usa 15,30,60,90 o 120 m.")) ∧
    ((30 : ℤ) ∈ VALID_RES ∧
      ∃ ev b,
        download_poligono_wcs_split_per_polygon "T" "capa" 30 [envOK] = (ev, .ok b)) :=
  ⟨⟨by decide, (preflight_resolution_check "T" "capa" 45 [envOK]).1 (by decide)⟩,
   ⟨by decide, (preflight_resolution_check "T" "capa" 30 [envOK]).2 (by decide)⟩⟩

/-- C5: for every polygon whose reprojected bbox is `(a, b, c, d)` and every
valid resolution, the bbox handed to the query builder is exactly that bbox
expanded outward by one angular step on all four sides. -/
theorem bbox_padded_one_step (tempBase layerName : String) (res_m : ℤ)
    (total i : ℕ) (env : PolyEnv) (a b c d : ℚ)
    (hres : res_m ∈ VALID_RES) (hbb : env.bbox4326 = .ok (a, b, c, d)) :
    ∃ step, meters_to_deg_step res_m = .ok step ∧
      (process_poly tempBase layerName res_m total i env).queryBBox =
        some (a - step, b - step, c + step, d + step) := by
  obtain ⟨st, hst⟩ := valid_res_step res_m hres
  exact ⟨st, hst, process_poly_queryBBox tempBase layerName res_m total i env a b c d st hbb hst⟩

/-- C5 witness: concrete polygon with bbox (0,0,1,1) at resolution 30. -/
theorem bbox_padded_one_step_witness :
    (30 : ℤ) ∈ VALID_RES ∧ envOK.bbox4326 = .ok (0, 0, 1, 1) ∧
      ∃ step, meters_to_deg_step 30 = .ok step ∧
        (process_poly "T" "capa" 30 3 1 envOK).queryBBox =
          some (0 - step, 0 - step, 1 + step, 1 + step) :=
  ⟨by decide, rfl, bbox_padded_one_step "T" "capa" 30 3 1 envOK 0 0 1 1 (by decide) rfl⟩

/-- C6: a batch whose exploded input contains zero polygons logs the
no-polygons message and terminates successfully with an empty result and no
I/O at all. -/
theorem empty_input_terminates_successfully (tempBase layerName : String)
    (res_m : ℤ) (hres : res_m ∈ VALID_RES) :
    download_poligono_wcs_split_per_polygon tempBase layerName res_m [] =
      ([], .ok ⟨["La capa no contiene polígonos."], [], []⟩) := by
  simp [download_poligono_wcs_split_per_polygon, hres]

/-- C6 witness: the empty batch at resolution 30. -/
theorem empty_input_terminates_successfully_witness :
    (30 : ℤ) ∈ VALID_RES ∧
      download_poligono_wcs_split_per_polygon "T" "capa" 30 [] =
        ([], .ok ⟨["La capa no contiene polígonos."], [], []⟩) :=
  ⟨by decide, empty_input_terminates_successfully "T" "capa" 30 (by decide)⟩

/-- C7 counterexample: the completion report is the constant string
"Listo. Resultado en TEMP (un TIFF por polígono)." regardless of how many
polygons succeeded or failed.  A one-polygon run with zero failures and a
two-polygon run with two failures (different succeeded/failed counts) end
with the identical completion line, so the completion report cannot state
the count of succeeded polygons, the count of failed polygons, or the list
of failed indices, contradicting the claim. -/
theorem completion_summary_counterexample :
    ((download_poligono_wcs_split_per_polygon "T" "capa" 30 [envOK]).2.map
      Batch.outcomes) = .ok [.loaded (out_tif_path "T" "capa" 30 1)] ∧
    ((download_poligono_wcs_split_per_polygon "T" "capa" 30 [envNet, envNet]).2.map
      Batch.outcomes) =
        .ok [.failed "Error de red: timeout", .failed "Error de red: timeout"] ∧
    ((download_poligono_wcs_split_per_polygon "T" "capa" 30 [envOK]).2.map
      (fun b => b.log.getLast?)) =
        .ok (some "Listo. Resultado en TEMP (un TIFF por polígono).") ∧
    ((download_poligono_wcs_split_per_polygon "T" "capa" 30 [envNet, envNet]).2.map
      (fun b => b.log.getLast?)) =
        .ok (some "Listo. Resultado en TEMP (un TIFF por polígono).") :=
  ⟨rfl, rfl, rfl, rfl⟩

/-- C7 (amended): on completion of every batch the function reports only the
fixed completion message (which states no counts); the failed indices and
their error details are reported by the per-polygon ERROR log lines emitted
during the loop, in index order. -/
theorem completion_report_amended (tempBase layerName : String) (res_m : ℤ)
    (feats : List PolyEnv) (hres : res_m ∈ VALID_RES) (hne : feats.length ≠ 0) :
    ∃ ev b,
      download_poligono_wcs_split_per_polygon tempBase layerName res_m feats = (ev, .ok b) ∧
      b.log.getLast? = some "Listo. Resultado en TEMP (un TIFF por polígono)." ∧
      (∀ (k : ℕ) (env : PolyEnv) (e : String), feats[k]? = some env →
        (process_poly tempBase layerName res_m feats.length (1 + k) env).outcome = .failed e →
        err_line (1 + k) feats.length e ∈ b.log) := by
  refine ⟨(process_feats tempBase layerName res_m feats.length 1 feats).events,
    ⟨(process_feats tempBase layerName res_m feats.length 1 feats).log ++
      ["Listo. Resultado en TEMP (un TIFF por polígono)."],
     (process_feats tempBase layerName res_m feats.length 1 feats).outcomes,
     (process_feats tempBase layerName res_m feats.length 1 feats).progress⟩, ?_, ?_, ?_⟩
  · simp [download_poligono_wcs_split_per_polygon, hres, hne]
  · simp [List.getLast?_append]
  · intro k env e hk hfail
    have hmem := process_feats_log_mem tempBase layerName res_m feats.length feats 1 k env hk
      (err_line (1 + k) feats.length e)
      (process_poly_failed_log tempBase layerName res_m feats.length (1 + k) env e hfail)
    simp only [List.mem_append]
    left
    exact hmem

/-- C7 (amended) witness: a one-polygon batch that fails on the network. -/
theorem completion_report_amended_witness :
    (30 : ℤ) ∈ VALID_RES ∧ ([envNet] : List PolyEnv).length ≠ 0 ∧
      ∃ ev b,
        download_poligono_wcs_split_per_polygon "T" "capa" 30 [envNet] = (ev, .ok b) ∧
        b.log.getLast? = some "Listo. Resultado en TEMP (un TIFF por polígono)." ∧
        (∀ (k : ℕ) (env : PolyEnv) (e : String),
          ([envNet] : List PolyEnv)[k]? = some env →
          (process_poly "T" "capa" 30 ([envNet] : List PolyEnv).length (1 + k) env).outcome =
            .failed e →
          err_line (1 + k) ([envNet] : List PolyEnv).length e ∈ b.log) :=
  ⟨by decide, by simp,
    completion_report_amended "T" "capa" 30 [envNet] (by decide) (by simp)⟩

lemma charVal_digitChar (x : ℕ) (h : x < 10) : charVal (Nat.digitChar x) = x := by
  interval_cases x <;> decide

lemma digitChar_ne_p (x : ℕ) (h : x < 10) : Nat.digitChar x ≠ 'p' := by
  interval_cases x <;> decide

lemma ofDigitsRev_append_zeros (l : List ℕ) (z : ℕ) :
    ofDigitsRev (l ++ List.replicate z 0) = ofDigitsRev l := by
  induction l with
  | nil =>
    simp only [List.nil_append]
    induction z with
    | zero => simp
    | succ z ih => simpa [ofDigitsRev, List.replicate_succ] using ih
  | cons d t ih => simpa [ofDigitsRev] using ih

lemma ofDigitsRev_digitsRevFuel : ∀ fuel n, n ≤ fuel →
    ofDigitsRev (digitsRevFuel fuel n) = n := by
  intro fuel
  induction fuel with
  | zero =>
    intro n h
    have : n = 0 := Nat.le_zero.mp h
    simp [digitsRevFuel, ofDigitsRev, this]
  | succ f ih =>
    intro n h
    by_cases h0 : n = 0
    · simp [digitsRevFuel, h0, ofDigitsRev]
    · have hdiv : n / 10 ≤ f :=
        Nat.le_of_lt_succ (Nat.lt_of_lt_of_le (Nat.div_lt_self (Nat.pos_of_ne_zero h0) (by norm_num)) h)
      simp only [digitsRevFuel, if_neg h0, ofDigitsRev, List.foldr_cons]
      have := ih (n / 10) hdiv
      simp only [ofDigitsRev] at this
      rw [this]
      omega

lemma unpadNat_natPadded (m d : ℕ) : unpadNat (natPadded m d) = m := by
  have hmap : ((digitsRev m).reverse.map Nat.digitChar).reverse.map charVal = digitsRev m := by
    rw [← List.map_reverse, List.reverse_reverse, List.map_map]
    have : ∀ x ∈ digitsRev m, (charVal ∘ Nat.digitChar) x = x := by
      intro x hx
      exact charVal_digitChar x (digitsRevFuel_lt10 m m x hx)
    rw [List.map_congr_left this]
    simp
  unfold unpadNat natPadded natDigitChars
  rw [List.reverse_append, List.map_append, hmap, List.reverse_replicate, List.map_replicate]
  have hz : charVal '0' = 0 := by decide
  rw [hz, ofDigitsRev_append_zeros]
  exact ofDigitsRev_digitsRevFuel m m le_rfl

lemma pad4_injective {i j : ℕ} (h : pad4 i = pad4 j) : i = j := by
  have hd : natPadded i 4 = natPadded j 4 := congrArg String.data h
  rw [← unpadNat_natPadded i 4, hd, unpadNat_natPadded]

lemma rev_getElem_append (A B : List Char) (k : ℕ) (hk : k < B.length) :
    (A ++ B).reverse[k]? = B.reverse[k]? := by
  rw [List.reverse_append]
  exact List.getElem?_append_left (by simpa using hk)

lemma natPadded_ends_digit (m : ℕ) :
    ∃ q x, x < 10 ∧ natPadded m 4 = q ++ [Nat.digitChar x] := by
  cases hrev : digitsRev m with
  | nil =>
    refine ⟨List.replicate 3 '0', 0, by norm_num, ?_⟩
    simp [natPadded, natDigitChars, hrev]
    decide
  | cons h0 t =>
    refine ⟨List.replicate (4 - (natDigitChars m).length) '0' ++ t.reverse.map Nat.digitChar,
      h0, ?_, ?_⟩
    · exact digitsRevFuel_lt10 m m h0 (by rw [show digitsRevFuel m m = digitsRev m from rfl, hrev]; exact List.mem_cons_self h0 t)
    · simp only [natPadded, natDigitChars, hrev, List.reverse_cons, List.map_append,
        List.map_cons, List.map_nil, List.append_assoc]

lemma nthFromEnd_tif_raw (tB ln : String) (rm : ℤ) (i : ℕ) :
    ∃ x, x < 10 ∧ nthFromEnd (tif_raw_path tB ln rm i) 4 = some (Nat.digitChar x) := by
  obtain ⟨q, x, hx, hq⟩ := natPadded_ends_digit i
  refine ⟨x, hx, ?_⟩
  have hdata : (tif_raw_path tB ln rm i).data =
      ((tmp_root_path tB ln rm).data ++ "/wcs_raw_poly_".data ++ q) ++
        (Nat.digitChar x :: '.' :: 't' :: 'i' :: 'f' :: []) := by
    simp [tif_raw_path, String.data_append, pad4, hq, List.append_assoc]
  rw [nthFromEnd, hdata, rev_getElem_append _ _ 4 (by simp)]
  rfl

lemma nthFromEnd_out_tif (tB ln : String) (rm : ℤ) (j : ℕ) :
    nthFromEnd (out_tif_path tB ln rm j) 4 = some 'p' := by
  have hdata : (out_tif_path tB ln rm j).data =
      ((tmp_root_path tB ln rm ++ "/" ++ ln ++ "__poly" ++ pad4 j ++ "__cem_" ++
        toString rm).data) ++ "m_clip.tif".data := by
    simp [out_tif_path, String.data_append, List.append_assoc]
  rw [nthFromEnd, hdata, rev_getElem_append _ _ 4 (by decide)]
  decide

lemma nthFromEnd_tif_raw_zero (tB ln : String) (rm : ℤ) (i : ℕ) :
    nthFromEnd (tif_raw_path tB ln rm i) 0 = some 'f' := by
  have hdata : (tif_raw_path tB ln rm i).data =
      ((tmp_root_path tB ln rm ++ "/wcs_raw_poly_" ++ pad4 i).data) ++ ".tif".data := by
    simp [tif_raw_path, String.data_append, List.append_assoc]
  rw [nthFromEnd, hdata, rev_getElem_append _ _ 0 (by decide)]
  decide

lemma nthFromEnd_out_tif_zero (tB ln : String) (rm : ℤ) (j : ℕ) :
    nthFromEnd (out_tif_path tB ln rm j) 0 = some 'f' := by
  have hdata : (out_tif_path tB ln rm j).data =
      ((tmp_root_path tB ln rm ++ "/" ++ ln ++ "__poly" ++ pad4 j ++ "__cem_" ++
        toString rm).data) ++ "m_clip.tif".data := by
    simp [out_tif_path, String.data_append, List.append_assoc]
  rw [nthFromEnd, hdata, rev_getElem_append _ _ 0 (by decide)]
  decide

lemma nthFromEnd_mask_zero (tB ln : String) (rm : ℤ) (i : ℕ) :
    nthFromEnd (mask_geojson_path tB ln rm i) 0 = some 'n' := by
  have hdata : (mask_geojson_path tB ln rm i).data =
      ((tmp_root_path tB ln rm ++ "/mask_poly_" ++ pad4 i).data) ++ ".geojson".data := by
    simp [mask_geojson_path, String.data_append, List.append_assoc]
  rw [nthFromEnd, hdata, rev_getElem_append _ _ 0 (by decide)]
  decide

lemma tif_raw_path_inj (tB ln : String) (rm : ℤ) {i j : ℕ}
    (h : tif_raw_path tB ln rm i = tif_raw_path tB ln rm j) : i = j := by
  have hd := congrArg String.data h
  simp only [tif_raw_path, tmp_root_path, plugin_temp_dir, pad4, String.data_append,
    List.append_assoc] at hd
  repeat' replace hd := List.append_cancel_left hd
  replace hd := List.append_cancel_right hd
  rw [← unpadNat_natPadded i 4, hd, unpadNat_natPadded]

lemma mask_geojson_path_inj (tB ln : String) (rm : ℤ) {i j : ℕ}
    (h : mask_geojson_path tB ln rm i = mask_geojson_path tB ln rm j) : i = j := by
  have hd := congrArg String.data h
  simp only [mask_geojson_path, tmp_root_path, plugin_temp_dir, pad4, String.data_append,
    List.append_assoc] at hd
  repeat' replace hd := List.append_cancel_left hd
  replace hd := List.append_cancel_right hd
  rw [← unpadNat_natPadded i 4, hd, unpadNat_natPadded]

lemma out_tif_path_inj (tB ln : String) (rm : ℤ) {i j : ℕ}
    (h : out_tif_path tB ln rm i = out_tif_path tB ln rm j) : i = j := by
  have hd := congrArg String.data h
  simp only [out_tif_path, tmp_root_path, plugin_temp_dir, pad4, String.data_append,
    List.append_assoc] at hd
  repeat' replace hd := List.append_cancel_left hd
  replace hd := List.append_cancel_right hd
  rw [← unpadNat_natPadded i 4, hd, unpadNat_natPadded]

/-- C10: within one batch run the scratch-file paths of distinct polygon
indices never collide — raw raster, mask, and clipped output paths of index
`i` are pairwise distinct from those of index `j`, so no polygon's pipeline
overwrites a sibling polygon's artifacts. -/
theorem scratch_paths_never_collide (tempBase layerName : String) (res_m : ℤ)
    (i j : ℕ) (hij : i ≠ j) :
    tif_raw_path tempBase layerName res_m i ≠ tif_raw_path tempBase layerName res_m j ∧
    mask_geojson_path tempBase layerName res_m i ≠ mask_geojson_path tempBase layerName res_m j ∧
    out_tif_path tempBase layerName res_m i ≠ out_tif_path tempBase layerName res_m j ∧
    tif_raw_path tempBase layerName res_m i ≠ mask_geojson_path tempBase layerName res_m j ∧
    tif_raw_path tempBase layerName res_m i ≠ out_tif_path tempBase layerName res_m j ∧
    mask_geojson_path tempBase layerName res_m i ≠ out_tif_path tempBase layerName res_m j := by
  refine ⟨?_, ?_, ?_, ?_, ?_, ?_⟩
  · intro h; exact hij (tif_raw_path_inj tempBase layerName res_m h)
  · intro h; exact hij (mask_geojson_path_inj tempBase layerName res_m h)
  · intro h; exact hij (out_tif_path_inj tempBase layerName res_m h)
  · intro h
    have h0 : nthFromEnd (tif_raw_path tempBase layerName res_m i) 0 =
        nthFromEnd (mask_geojson_path tempBase layerName res_m j) 0 := by rw [h]
    rw [nthFromEnd_tif_raw_zero, nthFromEnd_mask_zero] at h0
    exact absurd h0 (by decide)
  · intro h
    obtain ⟨x, hx, hraw⟩ := nthFromEnd_tif_raw tempBase layerName res_m i
    have h4 : nthFromEnd (tif_raw_path tempBase layerName res_m i) 4 =
        nthFromEnd (out_tif_path tempBase layerName res_m j) 4 := by rw [h]
    rw [hraw, nthFromEnd_out_tif] at h4
    exact digitChar_ne_p x hx (Option.some_inj.mp h4)
  · intro h
    have h0 : nthFromEnd (mask_geojson_path tempBase layerName res_m i) 0 =
        nthFromEnd (out_tif_path tempBase layerName res_m j) 0 := by rw [h]
    rw [nthFromEnd_mask_zero, nthFromEnd_out_tif_zero] at h0
    exact absurd h0 (by decide)

/-- C10 witness: indices 1 and 2 of a concrete run. -/
theorem scratch_paths_never_collide_witness :
    (1 : ℕ) ≠ 2 ∧
      (tif_raw_path "T" "capa" 30 1 ≠ tif_raw_path "T" "capa" 30 2 ∧
       mask_geojson_path "T" "capa" 30 1 ≠ mask_geojson_path "T" "capa" 30 2 ∧
       out_tif_path "T" "capa" 30 1 ≠ out_tif_path "T" "capa" 30 2 ∧
       tif_raw_path "T" "capa" 30 1 ≠ mask_geojson_path "T" "capa" 30 2 ∧
       tif_raw_path "T" "capa" 30 1 ≠ out_tif_path "T" "capa" 30 2 ∧
       mask_geojson_path "T" "capa" 30 1 ≠ out_tif_path "T" "capa" 30 2) :=
  ⟨by decide, scratch_paths_never_collide "T" "capa" 30 1 2 (by decide)⟩
